import Mathlib

/-
Shallow embedding of ShadowStrikeHQ/vscan-error-code-analyzer (src/main.py).

The program is a single-shot HTTP error-code analyzer: it validates a URL,
issues one GET request, classifies the resulting status code against a static
table of seven "interesting" codes, and prints a fixed-format report.

The network exchange itself happens inside the requests library, outside this
repository, so it is represented here as an explicit input (HttpOutcome): a
transport-level response carrying status, reason and headers, or a raised
exception. The semantics of response.raise_for_status() (raise HTTPError, a
subclass of RequestException, exactly when 400 <= status < 600) is the
documented behaviour of the requests library and is embedded as such.
-/

namespace Vscan

/-- The URL argument as a Python value: either a string or some non-string
value (src/main.py line 28 checks isinstance(url, str)). -/
inductive UrlArg where
  | str (s : String)
  | nonString
deriving DecidableEq

/-- Exceptions the constructor raises (src/main.py lines 28-31):
TypeError for a non-string URL, ValueError for a missing scheme. -/
inductive InitError where
  | typeError (msg : String)
  | valueError (msg : String)
deriving DecidableEq

/-- Default User-Agent used when the constructor receives a falsy user_agent
(src/main.py line 34). -/
def default_user_agent : String := "vscan-error-code-analyzer/1.0"

/-- The default of the -u and --user-agent CLI option (src/main.py line 111). -/
def argparse_default_user_agent : String := "vscan-error-code-analyzer/1.0"

/-- The default of the -t and --timeout CLI option (src/main.py line 112). -/
def argparse_default_timeout : Nat := 10

/-- The static ErrorPatternTable: self.error_patterns, src/main.py lines 38-46. -/
def error_patterns : List (Nat × String) :=
  [ (400, "Possible input validation issues. Check for malformed requests."),
    (401, "Authentication required. Investigate authentication mechanisms and bypasses."),
    (403, "Forbidden. Potential directory listing vulnerability or access control misconfiguration."),
    (404, "Not Found. Check for information disclosure or path traversal vulnerabilities."),
    (405, "Method Not Allowed. Investigate allowed methods and potential for exploitation."),
    (500, "Internal Server Error. Check server logs for details. Potential for remote code execution or information disclosure."),
    (503, "Service Unavailable. Check for denial-of-service vulnerabilities.") ]

/-- The generic description for codes outside the table (src/main.py line 77). -/
def no_vuln_description : String :=
  "No known vulnerability associated with this status code."

/-- The state built by VscanErrorAnalyzer.__init__ (src/main.py lines 33-46).
The error_patterns dict is stored per instance in the source but is a
constant, so it is kept as the global definition above. -/
structure VscanErrorAnalyzer where
  url : String
  user_agent : String
  timeout : Nat
  ignore_ssl_errors : Bool
  headers : List (String × String)
deriving DecidableEq

/-- Python str.startswith semantics (src/main.py line 30): s starts with p
exactly when the first characters of s are the characters of p. -/
def starts_with (s p : String) : Bool :=
  decide (s.data.take p.data.length = p.data)

/-- The user agent computed at src/main.py line 34 (user_agent or the
default), with Python falsiness: None and the empty string are falsy. -/
def init_user_agent : Option String → String
  | none => default_user_agent
  | some s => if s = "" then default_user_agent else s

/-- VscanErrorAnalyzer.__init__ (src/main.py lines 18-46). -/
def VscanErrorAnalyzer.init (url : UrlArg) (user_agent : Option String)
    (timeout : Nat) (ignore_ssl_errors : Bool) :
    Except InitError VscanErrorAnalyzer :=
  match url with
  | .nonString => .error (.typeError "URL must be a string.")
  | .str u =>
    if starts_with u "http://" || starts_with u "https://" then
      .ok { url := u, user_agent := init_user_agent user_agent,
            timeout := timeout, ignore_ssl_errors := ignore_ssl_errors,
            headers := [("User-Agent", init_user_agent user_agent)] }
    else
      .error (.valueError "URL must start with http:// or https://")

/-- The URL check performed by the constructor (src/main.py lines 28-31),
as a boolean: true exactly when construction succeeds. -/
def url_ok : UrlArg → Bool
  | .str s => starts_with s "http://" || starts_with s "https://"
  | .nonString => false

/-- The argument tuple of the single requests.get call (src/main.py line 57). -/
structure GetRequest where
  url : String
  headers : List (String × String)
  timeout : Nat
  verify : Bool
deriving DecidableEq

/-- The GET request scan sends: requests.get(self.url, headers=self.headers,
timeout=self.timeout, verify=not self.ignore_ssl_errors), src/main.py line 57. -/
def VscanErrorAnalyzer.get_request (a : VscanErrorAnalyzer) : GetRequest :=
  { url := a.url, headers := a.headers, timeout := a.timeout,
    verify := !a.ignore_ssl_errors }

/-- Module import effect at src/main.py line 8:
urllib3.disable_warnings(urllib3.exceptions.InsecureRequestWarning) runs
unconditionally, so the insecure-request warning is always suppressed. -/
def insecure_request_warnings_disabled : Bool := true

/-- A transport-level HTTP response as the requests library delivers it:
numeric status code, reason phrase, and the response headers. -/
structure HttpResponse where
  status : Nat
  reason : String
  headers : List (String × String)
deriving DecidableEq

/-- Outcome of executing the GET request of src/main.py line 57 against the
network: a transport-level response, or a raised requests.exceptions.
RequestException (DNS failure, connection refused, timeout, TLS failure), or
any other exception. -/
inductive HttpOutcome where
  | success (r : HttpResponse)
  | transportError (msg : String)
  | unexpectedError (msg : String)
deriving DecidableEq

/-- Exceptions that can flow out of the try block of scan
(src/main.py lines 55-80). httpError is requests.exceptions.HTTPError,
a subclass of RequestException. -/
inductive PyExc where
  | requestException (msg : String)
  | httpError (msg : String)
  | otherException (msg : String)
deriving DecidableEq

/-- The message text of the HTTPError that response.raise_for_status() builds
(requests library behaviour: client error for 4xx, server error for 5xx). -/
def http_error_message (status : Nat) (reason url : String) : String :=
  if status < 500 then
    toString status ++ " Client Error: " ++ reason ++ " for url: " ++ url
  else
    toString status ++ " Server Error: " ++ reason ++ " for url: " ++ url

/-- response.raise_for_status() (src/main.py line 58): raises HTTPError
exactly when 400 <= status_code < 600, per the requests library. -/
def raise_for_status (r : HttpResponse) (url : String) :
    Except PyExc Unit :=
  if 400 ≤ r.status ∧ r.status < 600 then
    .error (.httpError (http_error_message r.status r.reason url))
  else
    .ok ()

/-- The dict scan returns (src/main.py lines 65-71, 74-80, 85-91, 94-100):
keys url, status_code, description, vulnerable, response_headers. -/
structure ScanResult where
  url : String
  status_code : Option Nat
  description : String
  vulnerable : Bool
  response_headers : List (String × String)
deriving DecidableEq

/-- The try block of scan (src/main.py lines 55-80): the GET request runs
(its outcome is the parameter), raise_for_status may raise, and otherwise
the status code is classified against error_patterns. An exception escaping
the block is the .error case. -/
def scan_try (a : VscanErrorAnalyzer) (outcome : HttpOutcome) :
    Except PyExc ScanResult :=
  match outcome with
  | .transportError msg => .error (.requestException msg)
  | .unexpectedError msg => .error (.otherException msg)
  | .success r =>
    match raise_for_status r a.url with
    | .error e => .error e
    | .ok _ =>
      if (error_patterns.lookup r.status).isSome then
        .ok { url := a.url, status_code := some r.status,
              description := (error_patterns.lookup r.status).getD "",
              vulnerable := true, response_headers := r.headers }
      else
        .ok { url := a.url, status_code := some r.status,
              description := no_vuln_description,
              vulnerable := false, response_headers := r.headers }

/-- VscanErrorAnalyzer.scan (src/main.py lines 48-100): the try block
followed by the two except handlers. The RequestException handler
(lines 83-91) also catches HTTPError, its subclass; the Exception handler
(lines 92-100) catches everything else. -/
def scan (a : VscanErrorAnalyzer) (outcome : HttpOutcome) : ScanResult :=
  match scan_try a outcome with
  | .ok result => result
  | .error (.requestException msg) =>
      { url := a.url, status_code := none,
        description := "Request error: " ++ msg,
        vulnerable := false, response_headers := [] }
  | .error (.httpError msg) =>
      { url := a.url, status_code := none,
        description := "Request error: " ++ msg,
        vulnerable := false, response_headers := [] }
  | .error (.otherException msg) =>
      { url := a.url, status_code := none,
        description := "An unexpected error occurred: " ++ msg,
        vulnerable := false, response_headers := [] }

/-- How Python prints result[ "status_code" ] inside an f-string
(src/main.py line 134): None prints as "None", an int in decimal. -/
def status_code_str : Option Nat → String
  | none => "None"
  | some n => toString n

/-- How Python prints the boolean result[ "vulnerable" ]
(src/main.py line 136). -/
def py_bool_str (b : Bool) : String := if b then "True" else "False"

/-- The report main prints for a result (src/main.py lines 133-139): the five
field lines followed by one indented line per response header. -/
def report (r : ScanResult) : List String :=
  [ "URL: " ++ r.url,
    "Status Code: " ++ status_code_str r.status_code,
    "Description: " ++ r.description,
    "Vulnerable: " ++ py_bool_str r.vulnerable,
    "Response Headers:" ]
  ++ r.response_headers.map (fun kv => "  " ++ kv.1 ++ ": " ++ kv.2)

/-- The keys of the dict scan returns: every return statement of scan builds
a dict literal with exactly these five keys (src/main.py lines 65-71, 74-80,
85-91, 94-100). -/
def result_dict_keys : List String :=
  ["url", "status_code", "description", "vulnerable", "response_headers"]

/-- Python truthiness of the result dict at src/main.py line 132: a dict is
truthy exactly when it is non-empty; the dict scan returns always carries the
five keys of result_dict_keys. -/
def result_is_truthy (_ : ScanResult) : Bool := !result_dict_keys.isEmpty

/-- Lines 132-142 of src/main.py: print the report when the result is truthy,
otherwise the fallback line. -/
def main_output (r : ScanResult) : List String :=
  if result_is_truthy r then report r else ["No results found."]

/-- Observable outcome of one run of main (src/main.py lines 118-149):
what is printed, the process exit code, and whether the GET request was made. -/
structure MainResult where
  output : List String
  exit_code : Nat
  request_made : Bool
deriving DecidableEq

/-- main (src/main.py lines 118-149) after argument parsing: construct the
analyzer, scan, and print; a ValueError or TypeError from the constructor is
printed and the process exits with code 1 before any request is made. -/
def py_main (url : UrlArg) (user_agent : Option String) (timeout : Nat)
    (ignore_ssl : Bool) (outcome : HttpOutcome) : MainResult :=
  match VscanErrorAnalyzer.init url user_agent timeout ignore_ssl with
  | .error (.valueError m) =>
      { output := ["Error: " ++ m], exit_code := 1, request_made := false }
  | .error (.typeError m) =>
      { output := ["Error: " ++ m], exit_code := 1, request_made := false }
  | .ok a =>
      { output := main_output (scan a outcome), exit_code := 0,
        request_made := true }

/-- The analyzer main builds for url https example.com with all defaults,
used as the concrete instance in the evaluation theorems below. -/
def example_analyzer : VscanErrorAnalyzer :=
  { url := "https://example.com", user_agent := default_user_agent,
    timeout := 10, ignore_ssl_errors := false,
    headers := [("User-Agent", default_user_agent)] }

/-
Theorems about the embedded program, one per claim of the specification,
plus shared helper lemmas.
-/

/-- Helper: when the URL string passes the scheme check, the constructor
succeeds and returns exactly the state of src/main.py lines 33-46. -/
theorem init_ok_of_url_ok (s : String) (ua : Option String) (t : Nat)
    (ssl : Bool) (h : url_ok (.str s) = true) :
    VscanErrorAnalyzer.init (.str s) ua t ssl =
      .ok { url := s, user_agent := init_user_agent ua, timeout := t,
            ignore_ssl_errors := ssl,
            headers := [("User-Agent", init_user_agent ua)] } := by
  simp only [url_ok] at h
  simp [VscanErrorAnalyzer.init, h]

/-- C1: the claim fails on the code. On a transport-level exchange that
completes with status 403 (a 4xx code) and a Server header, scan does not
return the status code and headers: response.raise_for_status() at
src/main.py line 58 raises HTTPError, caught by the RequestException handler
at line 83, so the result has status_code none, empty headers and
vulnerable false. -/
theorem c1_4xx_takes_error_branch :
    VscanErrorAnalyzer.init (.str "https://example.com") none 10 false
      = .ok example_analyzer ∧
    (scan example_analyzer
      (.success ⟨403, "Forbidden", [("Server", "nginx")]⟩)).status_code = none ∧
    (scan example_analyzer
      (.success ⟨403, "Forbidden", [("Server", "nginx")]⟩)).response_headers = [] ∧
    (scan example_analyzer
      (.success ⟨403, "Forbidden", [("Server", "nginx")]⟩)).vulnerable = false :=
  ⟨rfl, by decide, by decide, by decide⟩

/-- C2: the claim fails on the code. For every one of the seven codes of the
ErrorPatternTable, a response with that code is intercepted by
raise_for_status (all seven lie in 400..599), so scan returns the error
result: vulnerable false, status_code none, and a description that is not
the canned table entry. -/
theorem c2_table_codes_never_classified :
    error_patterns.map Prod.fst = [400, 401, 403, 404, 405, 500, 503] ∧
    ((error_patterns.map Prod.fst).all fun c =>
      ((scan example_analyzer (.success ⟨c, "", []⟩)).vulnerable == false) &&
      ((scan example_analyzer (.success ⟨c, "", []⟩)).status_code == none) &&
      ((scan example_analyzer (.success ⟨c, "", []⟩)).description
        != (error_patterns.lookup c).getD "")) = true := by
  constructor
  · rfl
  · decide

/-- C3: the claim holds for codes outside 400..599 (200 and 301 get
vulnerable false with the generic description) but fails at 418: a 4xx code
outside the table is intercepted by raise_for_status, so its result carries
the request-error description and status_code none instead of the generic
description and the code. -/
theorem c3_generic_branch_only_outside_400_599 :
    (scan example_analyzer (.success ⟨200, "OK", []⟩)).vulnerable = false ∧
    (scan example_analyzer (.success ⟨200, "OK", []⟩)).description
      = no_vuln_description ∧
    (scan example_analyzer (.success ⟨301, "Moved", []⟩)).vulnerable = false ∧
    (scan example_analyzer (.success ⟨301, "Moved", []⟩)).description
      = no_vuln_description ∧
    (scan example_analyzer (.success ⟨418, "Teapot", []⟩)).status_code = none ∧
    (scan example_analyzer (.success ⟨418, "Teapot", []⟩)).description
      ≠ no_vuln_description := by decide

/-- C4: for every url argument rejected by the constructor check (a
non-string value, or a string without an http or https scheme), main prints
the error and exits with code 1, and the GET request is never made. -/
theorem c4_invalid_url_exits_1 (url : UrlArg) (ua : Option String) (t : Nat)
    (ssl : Bool) (o : HttpOutcome) (h : url_ok url = false) :
    (py_main url ua t ssl o).exit_code = 1 ∧
    (py_main url ua t ssl o).request_made = false ∧
    ∃ m, (py_main url ua t ssl o).output = ["Error: " ++ m] := by
  cases url with
  | nonString =>
    exact ⟨rfl, rfl, "URL must be a string.", rfl⟩
  | str s =>
    simp only [url_ok] at h
    have hinit : VscanErrorAnalyzer.init (.str s) ua t ssl
        = .error (.valueError "URL must start with http:// or https://") := by
      simp [VscanErrorAnalyzer.init, h]
    refine ⟨?_, ?_, "URL must start with http:// or https://", ?_⟩ <;>
      simp [py_main, hinit]

/-- Witness for C4 at the concrete url ftp://example.com. -/
theorem c4_invalid_url_exits_1_witness :
    url_ok (.str "ftp://example.com") = false ∧
    ((py_main (.str "ftp://example.com") none 10 false
        (.success ⟨200, "OK", []⟩)).exit_code = 1 ∧
     (py_main (.str "ftp://example.com") none 10 false
        (.success ⟨200, "OK", []⟩)).request_made = false ∧
     ∃ m, (py_main (.str "ftp://example.com") none 10 false
        (.success ⟨200, "OK", []⟩)).output = ["Error: " ++ m]) :=
  ⟨by decide, c4_invalid_url_exits_1 (.str "ftp://example.com") none 10 false
    (.success ⟨200, "OK", []⟩) (by decide)⟩

/-- C5: a transport-level failure (the GET raises a RequestException with
message msg) is caught inside scan and converted into a result with
status_code none, vulnerable false and a description containing the error
text; main prints that result normally and the process exits with code 0. -/
theorem c5_transport_error_recovered (s : String) (ua : Option String)
    (t : Nat) (ssl : Bool) (msg : String) (h : url_ok (.str s) = true) :
    ∃ a, VscanErrorAnalyzer.init (.str s) ua t ssl = .ok a ∧
      (py_main (.str s) ua t ssl (.transportError msg)).exit_code = 0 ∧
      (py_main (.str s) ua t ssl (.transportError msg)).output
        = report (scan a (.transportError msg)) ∧
      (scan a (.transportError msg)).status_code = none ∧
      (scan a (.transportError msg)).vulnerable = false ∧
      ∃ p, (scan a (.transportError msg)).description = p ++ msg := by
  refine ⟨_, init_ok_of_url_ok s ua t ssl h, ?_, ?_, rfl, rfl,
    "Request error: ", rfl⟩
  · simp [py_main, init_ok_of_url_ok s ua t ssl h]
  · simp [py_main, init_ok_of_url_ok s ua t ssl h, main_output,
      result_is_truthy, result_dict_keys]

/-- Witness for C5 at https://example.com with a concrete timeout message. -/
theorem c5_transport_error_recovered_witness :
    url_ok (.str "https://example.com") = true ∧
    ∃ a, VscanErrorAnalyzer.init (.str "https://example.com") none 10 false
        = .ok a ∧
      (py_main (.str "https://example.com") none 10 false
        (.transportError "Connection timed out")).exit_code = 0 ∧
      (py_main (.str "https://example.com") none 10 false
        (.transportError "Connection timed out")).output
        = report (scan a (.transportError "Connection timed out")) ∧
      (scan a (.transportError "Connection timed out")).status_code = none ∧
      (scan a (.transportError "Connection timed out")).vulnerable = false ∧
      ∃ p, (scan a (.transportError "Connection timed out")).description
        = p ++ "Connection timed out" :=
  ⟨by decide, c5_transport_error_recovered "https://example.com" none 10
    false "Connection timed out" (by decide)⟩

/-- C6: the claim fails on the code. For the scan of https://example.com
answered with 403 and header Server nginx, the printed report does not
contain the lines the claim requires: the 403 is routed through
raise_for_status into the error branch, so the output holds
Status Code: None and Vulnerable: False and no header line. -/
theorem c6_403_report_lines_absent :
    "Status Code: 403" ∉ (py_main (.str "https://example.com") none 10 false
      (.success ⟨403, "Forbidden", [("Server", "nginx")]⟩)).output ∧
    "Vulnerable: True" ∉ (py_main (.str "https://example.com") none 10 false
      (.success ⟨403, "Forbidden", [("Server", "nginx")]⟩)).output ∧
    "  Server: nginx" ∉ (py_main (.str "https://example.com") none 10 false
      (.success ⟨403, "Forbidden", [("Server", "nginx")]⟩)).output ∧
    "Status Code: None" ∈ (py_main (.str "https://example.com") none 10 false
      (.success ⟨403, "Forbidden", [("Server", "nginx")]⟩)).output ∧
    "Vulnerable: False" ∈ (py_main (.str "https://example.com") none 10 false
      (.success ⟨403, "Forbidden", [("Server", "nginx")]⟩)).output := by
  decide

/-- C7: the GET request is sent with verify true exactly when the
ignore-ssl flag is off, and the insecure-request warning is suppressed
(unconditionally, by the module-level disable_warnings call). -/
theorem c7_verify_toggles_with_flag (a : VscanErrorAnalyzer) :
    (a.get_request.verify = true ↔ a.ignore_ssl_errors = false) ∧
    insecure_request_warnings_disabled = true := by
  refine ⟨?_, rfl⟩
  cases h : a.ignore_ssl_errors <;>
    simp [VscanErrorAnalyzer.get_request, h]

/-- C8: every analyzer the constructor returns sends its GET with header set
User-Agent mapped to its user agent and with the configured timeout; the
user agent is the falsy-defaulting value of src/main.py line 34, equal to
the default vscan-error-code-analyzer slash 1.0 when the option is absent or
empty, which is also the argparse default of the -u option. -/
theorem c8_request_user_agent_and_timeout (s : String) (ua : Option String)
    (t : Nat) (ssl : Bool) (a : VscanErrorAnalyzer)
    (h : VscanErrorAnalyzer.init (.str s) ua t ssl = .ok a) :
    a.get_request.headers = [("User-Agent", a.user_agent)] ∧
    a.get_request.timeout = t ∧
    a.user_agent = init_user_agent ua ∧
    ((ua = none ∨ ua = some "") → a.user_agent = default_user_agent) ∧
    argparse_default_user_agent = default_user_agent ∧
    default_user_agent = "vscan-error-code-analyzer/1.0" := by
  simp only [VscanErrorAnalyzer.init] at h
  split at h
  · rename_i hcond
    rw [Except.ok.injEq] at h
    subst h
    refine ⟨rfl, rfl, rfl, ?_, rfl, rfl⟩
    rintro (rfl | rfl) <;> rfl
  · exact absurd h (by simp)

/-- Witness for C8 at the default construction of https://example.com. -/
theorem c8_request_user_agent_and_timeout_witness :
    VscanErrorAnalyzer.init (.str "https://example.com") none 10 false
      = .ok example_analyzer ∧
    (example_analyzer.get_request.headers
        = [("User-Agent", example_analyzer.user_agent)] ∧
     example_analyzer.get_request.timeout = 10 ∧
     example_analyzer.user_agent = init_user_agent none ∧
     ((none = (none : Option String) ∨ (none : Option String) = some "") →
        example_analyzer.user_agent = default_user_agent) ∧
     argparse_default_user_agent = default_user_agent ∧
     default_user_agent = "vscan-error-code-analyzer/1.0") :=
  ⟨rfl, c8_request_user_agent_and_timeout "https://example.com" none 10
    false example_analyzer rfl⟩

/-- C9: invariant of every scan result: vulnerable is true exactly when the
status code is present and is a key of the ErrorPatternTable; when
vulnerable the description is the table entry for that code; and when the
status code is absent the result is not vulnerable and carries no headers. -/
theorem c9_result_invariant (a : VscanErrorAnalyzer) (o : HttpOutcome) :
    ((scan a o).vulnerable = true ↔
      ∃ c, (scan a o).status_code = some c ∧
        (error_patterns.lookup c).isSome = true) ∧
    (∀ c, (scan a o).vulnerable = true → (scan a o).status_code = some c →
      some (scan a o).description = error_patterns.lookup c) ∧
    ((scan a o).status_code = none →
      (scan a o).vulnerable = false ∧ (scan a o).response_headers = []) := by
  cases o with
  | transportError msg => simp [scan, scan_try]
  | unexpectedError msg => simp [scan, scan_try]
  | success r =>
    by_cases hr : 400 ≤ r.status ∧ r.status < 600
    · simp [scan, scan_try, raise_for_status, hr]
    · rcases hl : error_patterns.lookup r.status with _ | d
      · simp only [scan, scan_try, raise_for_status]
        simp [hr, hl]
        intro x hx
        have hne := List.lookup_eq_none_iff.mp hl (r.status, x) hx
        simp at hne
      · simp only [scan, scan_try, raise_for_status]
        simp [hr, hl]
        obtain ⟨p, hp, hpk⟩ := List.lookup_isSome_iff.mp
          (Option.isSome_iff_exists.mpr ⟨d, hl⟩)
        obtain ⟨p1, p2⟩ := p
        exact ⟨p2, by rw [eq_of_beq hpk]; exact hp⟩

/-- C10: scan returns a result on every path, the result dict is truthy, so
main always prints the five-field report (plus one line per header) and the
fallback line is unreachable. -/
theorem c10_scan_always_reports (a : VscanErrorAnalyzer) (o : HttpOutcome) :
    result_is_truthy (scan a o) = true ∧
    main_output (scan a o) = report (scan a o) ∧
    (main_output (scan a o)).length
      = 5 + (scan a o).response_headers.length ∧
    main_output (scan a o) ≠ ["No results found."] := by
  refine ⟨rfl, rfl, ?_, ?_⟩
  · simp [main_output, result_is_truthy, result_dict_keys, report]
    omega
  · intro hcontra
    have hlen := congrArg List.length hcontra
    simp [main_output, result_is_truthy, result_dict_keys, report] at hlen

end Vscan
